import Mathlib

/-!
Verification of the asynchronous execution and recurrence-scheduling subsystem
of the AIConnect backend.

The development shallowly embeds, in Lean:

* the recurrence engine `_calculate_next_run`
  (src/backend/app/workers/scheduled_posts.py, lines 243-340),
* the schedule worker `execute_scheduled_post` and its failure bookkeeping
  (src/backend/app/workers/scheduled_posts.py, lines 89-240) together with
  the poller's due-query (lines 33-42),
* the content-creation pipeline task `execute_content_creation`
  (src/backend/app/workers/content_creation.py, lines 832-1664), and
* the API-side dispatch and execution-record update
  (src/backend/app/api/v1/agents.py lines 73-104,
   src/backend/app/services/agent_execution_service.py lines 49-104).

Machine conventions: Python `datetime` values are modelled by the
`PyDateTime` structure below; Python dictionary rows become Lean structures;
external collaborators (RAG retrieval, LLM generation, media upload, the
per-channel platform publishers) are modelled as oracles gathered in an
environment record, exactly at the call boundaries where the source performs
external I/O.  Python truthiness of optional strings (`None` and `""` are
both falsy) is modelled through the `strTruthy` helper.
-/

namespace AIConnect

/-! ## Calendar arithmetic (proleptic Gregorian, as Python's `datetime`) -/

/-- Leap-year rule of the Gregorian calendar, as used by Python's
`calendar`/`datetime` modules. -/
def isLeap (y : Nat) : Bool :=
  y % 4 == 0 && (y % 100 != 0 || y % 400 == 0)

/-- `calendar.monthrange(y, m)[1]`: number of days of month `m` in year `y`. -/
def daysInMonth (y m : Nat) : Nat :=
  if m = 2 then (if isLeap y then 29 else 28)
  else if m = 4 ∨ m = 6 ∨ m = 9 ∨ m = 11 then 30
  else 31

/-- Number of days in the months of year `y` strictly before month `m`. -/
def daysBeforeMonth (y m : Nat) : Nat :=
  (List.range m).foldl (fun acc k => if 1 ≤ k then acc + daysInMonth y k else acc) 0

/-- `date.toordinal()`: day number of `(y, m, d)` counting 0001-01-01 as 1
(proleptic Gregorian calendar). -/
def toOrdinal (y m d : Nat) : Nat :=
  365 * (y - 1) + (y - 1) / 4 + (y - 1) / 400 - (y - 1) / 100 + daysBeforeMonth y m + d

/-- `date.weekday()`: 0 = Monday … 6 = Sunday. 0001-01-01 was a Monday. -/
def weekday (y m d : Nat) : Nat :=
  (toOrdinal y m d + 6) % 7

/-- A Python `datetime` value (timezone handling is uniform UTC in the
workers, so the offset is not represented). -/
structure PyDateTime where
  year : Nat
  month : Nat
  day : Nat
  hour : Nat
  minute : Nat
  second : Nat
  microsecond : Nat
  deriving Repr, DecidableEq

/-- Validity constraints enforced by the Python `datetime` constructor. -/
def PyDateTime.valid (t : PyDateTime) : Prop :=
  1 ≤ t.month ∧ t.month ≤ 12 ∧ 1 ≤ t.day ∧ t.day ≤ daysInMonth t.year t.month ∧
  t.hour ≤ 23 ∧ t.minute ≤ 59 ∧ t.second ≤ 59 ∧ t.microsecond ≤ 999999

instance (t : PyDateTime) : Decidable t.valid := by
  unfold PyDateTime.valid; infer_instance

/-- Key of the date part, strictly monotone in `(year, month, day)`
lexicographically for in-range fields. -/
def PyDateTime.dateKey (t : PyDateTime) : Nat :=
  (t.year * 13 + t.month) * 32 + t.day

/-- Key of the time-of-day part. -/
def PyDateTime.timeKey (t : PyDateTime) : Nat :=
  ((t.hour * 60 + t.minute) * 60 + t.second) * 1000000 + t.microsecond

/-- Number of distinct `timeKey` values of one day. -/
def ticksPerDay : Nat := 24 * 60 * 60 * 1000000

/-- Total order key.  For valid datetimes, `key` ordering coincides with
Python's chronological `datetime` comparison. -/
def PyDateTime.key (t : PyDateTime) : Nat :=
  t.dateKey * ticksPerDay + t.timeKey

/-- Python `a <= b` on datetimes. -/
def PyDateTime.le (a b : PyDateTime) : Prop := a.key ≤ b.key

/-- Python `a < b` on datetimes. -/
def PyDateTime.lt (a b : PyDateTime) : Prop := a.key < b.key

instance (a b : PyDateTime) : Decidable (a.le b) := by unfold PyDateTime.le; infer_instance

instance (a b : PyDateTime) : Decidable (a.lt b) := by unfold PyDateTime.lt; infer_instance

/-- `t.replace(hour=h, minute=mi, second=0, microsecond=0)`. -/
def PyDateTime.replaceTime (t : PyDateTime) (h mi : Nat) : PyDateTime :=
  { t with hour := h, minute := mi, second := 0, microsecond := 0 }

/-- The calendar successor of a date (the date part of `t + timedelta(days=1)`). -/
def PyDateTime.nextDay (t : PyDateTime) : PyDateTime :=
  if t.day < daysInMonth t.year t.month then { t with day := t.day + 1 }
  else if t.month < 12 then { t with month := t.month + 1, day := 1 }
  else { t with year := t.year + 1, month := 1, day := 1 }

/-- `t + timedelta(days=n)` on valid datetimes. -/
def PyDateTime.addDays (t : PyDateTime) : Nat → PyDateTime
  | 0 => t
  | n + 1 => (t.addDays n).nextDay

/-! ## The recurrence engine `_calculate_next_run` -/

/-- `schedule_config`, with the `.get` defaults of the source applied
(hour 9, minute 0, days_of_week `[0]`, days_of_month `[1]`). -/
structure ScheduleConfig where
  hour : Nat := 9
  minute : Nat := 0
  daysOfWeek : List Nat := [0]
  daysOfMonth : List Nat := [1]
  deriving Repr, DecidableEq

/-- Python's `sorted` on a list of naturals (insertion sort, ascending). -/
def insertAsc (x : Nat) : List Nat → List Nat
  | [] => [x]
  | y :: ys => if x ≤ y then x :: y :: ys else y :: insertAsc x ys

/-- Ascending sort, modelling Python `sorted`. -/
def sortedNats : List Nat → List Nat
  | [] => []
  | x :: xs => insertAsc x (sortedNats xs)

/-- Python `min` on a nonempty list of naturals (`0` on the empty list,
which the source never passes). -/
def listMin : List Nat → Nat
  | [] => 0
  | x :: xs => xs.foldl Nat.min x

/-- The `for day in sorted(days_of_week)` search of the weekly branch:
first configured weekday strictly after the current weekday. -/
def weeklyFindDay (days : List Nat) (currentWeekday : Nat) : Option Nat :=
  (sortedNats days).find? (fun day => decide (currentWeekday < day))

/-- The `for day in sorted(days_of_month)` search of the monthly branch:
first configured day strictly after the current day that is a valid day of
the current month (`datetime.replace` raises `ValueError` on the others,
which the source skips with `continue`). -/
def monthlyFindDay (days : List Nat) (y m currentDay : Nat) : Option Nat :=
  (sortedNats days).find? (fun day =>
    decide (currentDay < day) && decide (1 ≤ day) && decide (day ≤ daysInMonth y m))

/-- `_calculate_next_run(schedule_type, schedule_config, current_time)`
(scheduled_posts.py lines 243-340), translated clause by clause:

* `one_time` returns `None`;
* `daily` runs at `hour:minute`, rolling one day forward when that instant
  is not after `current_time`;
* `weekly` picks the first configured weekday strictly greater than the
  current weekday (in sorted order), else wraps to the smallest configured
  weekday of the following week;
* `monthly` picks the first configured day-of-month strictly greater than
  the current day that is valid for the current month (invalid days raise
  `ValueError` and are skipped), else moves to day 1 of the next month and
  then to the smallest configured day, clamped to that month's last day when
  it does not exist;
* any other type returns `None`. -/
def calculateNextRun (scheduleType : String) (cfg : ScheduleConfig)
    (currentTime : PyDateTime) : Option PyDateTime :=
  if scheduleType = "one_time" then
    none
  else if scheduleType = "daily" then
    let nextRun := currentTime.replaceTime cfg.hour cfg.minute
    if nextRun.le currentTime then some (nextRun.addDays 1) else some nextRun
  else if scheduleType = "weekly" then
    let currentWeekday := weekday currentTime.year currentTime.month currentTime.day
    match weeklyFindDay cfg.daysOfWeek currentWeekday with
    | some day =>
        some ((currentTime.replaceTime cfg.hour cfg.minute).addDays (day - currentWeekday))
    | none =>
        let firstDay := listMin cfg.daysOfWeek
        some ((currentTime.replaceTime cfg.hour cfg.minute).addDays
          ((7 - currentWeekday) + firstDay))
  else if scheduleType = "monthly" then
    match monthlyFindDay cfg.daysOfMonth currentTime.year currentTime.month currentTime.day with
    | some day =>
        some { currentTime with
                day := day
                hour := cfg.hour
                minute := cfg.minute
                second := 0
                microsecond := 0 }
    | none =>
        let firstDay := listMin cfg.daysOfMonth
        let nextMonth : PyDateTime :=
          if currentTime.month = 12 then
            { currentTime with
                year := currentTime.year + 1
                month := 1
                day := 1
                hour := cfg.hour
                minute := cfg.minute
                second := 0
                microsecond := 0 }
          else
            { currentTime with
                month := currentTime.month + 1
                day := 1
                hour := cfg.hour
                minute := cfg.minute
                second := 0
                microsecond := 0 }
        if 1 ≤ firstDay ∧ firstDay ≤ daysInMonth nextMonth.year nextMonth.month then
          some { nextMonth with day := firstDay }
        else
          some { nextMonth with day := min firstDay (daysInMonth nextMonth.year nextMonth.month) }
  else
    none

/-! ## Ordering facts about the calendar model -/

/-- The date-part bounds needed for `dateKey` to respect calendar order. -/
def PyDateTime.dateOk (t : PyDateTime) : Prop :=
  t.month ≤ 12 ∧ t.day ≤ 31

/-- `strictlyAfter t o` holds when `o` carries a timestamp strictly after `t`. -/
def strictlyAfter (t : PyDateTime) : Option PyDateTime → Prop
  | none => False
  | some r => t.lt r

/-- Validity of a `schedule_config` as assumed by the claims: in-range hour
and minute, nonempty in-range day sets. -/
def ScheduleConfig.validCfg (cfg : ScheduleConfig) : Prop :=
  cfg.hour ≤ 23 ∧ cfg.minute ≤ 59 ∧
  cfg.daysOfWeek ≠ [] ∧ (∀ d ∈ cfg.daysOfWeek, d ≤ 6) ∧
  cfg.daysOfMonth ≠ [] ∧ (∀ d ∈ cfg.daysOfMonth, 1 ≤ d ∧ d ≤ 31)

instance (cfg : ScheduleConfig) : Decidable cfg.validCfg := by
  unfold ScheduleConfig.validCfg; infer_instance

/-! ## The content-creation pipeline `execute_content_creation`

Embedding of src/backend/app/workers/content_creation.py, lines 832-1664.
Timestamps are uniform milliseconds (`datetime.now` instants become the
`tStart`/`tEnd` fields of the environment; `execution_time_ms` is their
difference).  The execution row is the only `AgentExecution` row the task
touches, so the database is modelled by that single record plus the list of
`ContentItem` rows the task inserts. -/

/-- Python whitespace characters as stripped by `str.strip()`. -/
def isSpaceChar (c : Char) : Bool :=
  c = ' ' || c = '\t' || c = '\n' || c = '\r' || c.toNat = 11 || c.toNat = 12

/-- Python `s.strip()`. -/
def pyStrip (s : String) : String :=
  ⟨((s.data.dropWhile isSpaceChar).reverse.dropWhile isSpaceChar).reverse⟩

/-- Python `s.endswith(suffix)`. -/
def pyEndsWith (s suffix : String) : Bool :=
  List.isSuffixOf suffix.data s.data

/-- Python truthiness of an optional string: `None` and `""` are falsy. -/
def strTruthy : Option String → Bool
  | none => false
  | some s => s ≠ ""

/-- Python `x or y` on optional strings: `y` when `x` is falsy. -/
def pyOr (a b : Option String) : Option String :=
  if strTruthy a then a else b

/-- One entry of the `tasks` step ledger (dicts with keys
`task`/`status`/`details`). -/
structure TaskEntry where
  task : String
  status : String
  details : String
  deriving Repr, DecidableEq

/-- One entry of `created_content_items`: the per-channel outcome dicts
(`status ∈ {"published", "failed", "skipped"}`; published entries carry the
channel-native post id, the others an error text). -/
structure ItemOut where
  platform : String
  status : String
  error : Option String
  postId : Option String
  deriving Repr, DecidableEq

/-- A `ContentItem` row inserted for a successful publish
(content_creation.py lines 1498-1521).  Fields that are constants or
unobservable identifiers (uuid primary key, tenant/execution ids, title,
timestamps, meta_data) are omitted. -/
structure ContentRow where
  platform : String
  content : String
  publishStatus : String
  platformPostId : Option String
  images : List String
  videos : List String
  deriving Repr, DecidableEq

/-- The `task_summary` sub-dictionary of the aggregated result. -/
structure TaskSummary where
  totalTasks : Nat
  passed : Nat
  failed : Nat
  skipped : Nat
  partialCount : Nat
  tasks : List TaskEntry
  deriving Repr, DecidableEq

/-- The aggregated `execution.result` payload written at finalization
(content_creation.py lines 1601-1616). -/
structure ExecResult where
  content : String
  platformContents : List (String × String)
  contentItems : List ItemOut
  imagesGenerated : Nat
  videosGenerated : Nat
  platformsPosted : List String
  taskSummary : TaskSummary
  deriving Repr, DecidableEq

/-- An `AgentExecution` row (models/agent_execution.py), restricted to the
fields the embedded code reads or writes. -/
structure ExecRecord where
  requestType : String
  status : String
  startedAt : Option Nat
  completedAt : Option Nat
  executionTimeMs : Option Nat
  result : Option ExecResult
  errorMessage : Option String
  stepsExecuted : List String
  toolsUsed : List String
  deriving Repr, DecidableEq

/-- The `request_data` payload (`request`, `platforms`, `include_images`,
`include_video`, read with `.get` at lines 885-888). -/
structure RequestData where
  request : String
  platforms : List String
  includeImages : Bool
  includeVideo : Bool
  deriving Repr, DecidableEq

/-- Outcome of the image stage oracle when images are requested:
`generated uploads` gives the per-image upload result (`some url` on upload
success); `notImplemented` models a `NotImplementedError` from the LLM
provider; `genError` any other exception. -/
inductive ImageStageOutcome
  | generated (uploads : List (Option String))
  | notImplemented
  | genError (msg : String)
  deriving Repr, DecidableEq

/-- Outcome of the video stage oracle when a video is requested. -/
inductive VideoStageOutcome
  | generated (upload : Option String)
  | genError (msg : String)
  deriving Repr, DecidableEq

/-- A Facebook page dict inside `integration.pages`.
`igBusinessAccount`: outer layer is the truthiness of
`page.get("instagram_business_account")`, inner layer the `id` inside it. -/
structure FbPage where
  idField : Option String
  pageIdField : Option String
  accessToken : Option String
  isDefault : Bool
  igBusinessAccount : Option (Option String)
  deriving Repr, DecidableEq

/-- A LinkedIn organization dict inside `integration.organizations`. -/
structure LiOrg where
  idField : Option String
  entityIdField : Option String
  orgIdField : Option String
  isDefault : Bool
  isOrganization : Bool
  deriving Repr, DecidableEq

/-- A `SocialIntegration` row, restricted to the fields the posting loop
reads.  `profileDataId` is `profile_data["id"]` when present and truthy;
`metaIgUserId` / `metaEntityId` collapse the `meta_data` fallback chains
(`ig_user_id`/`instagram_user_id`/`instagram_business_account_id`, resp.
`entity_id`/`organization_id`/`person_id`) to their first truthy value. -/
structure SocialIntegration where
  accessToken : Option String
  pages : List FbPage
  profileDataId : Option String
  metaIgUserId : Option String
  organizations : List LiOrg
  metaEntityId : Option String
  platformUserId : Option String
  deriving Repr, DecidableEq

/-- Result dict of a platform publisher
(`_post_to_social_platform_async` / the posting services). -/
structure PubResult where
  success : Bool
  postId : Option String
  error : Option String
  deriving Repr, DecidableEq

/-- The oracle environment: every external-I/O boundary of the task.
`genContent p` is the per-platform `_generate_content_direct` call (an
exception or the returned string); `genGeneric` the platform-less variant;
`publish p` the outcome of `_post_to_social_platform_async` for channel
`p` (invoked at most once per channel per run). -/
structure PipelineEnv where
  tStart : Nat
  tEnd : Nat
  ragChunkCount : Nat
  keywordOutcome : Except String Nat
  genContent : String → Except String String
  genGeneric : Except String String
  imageStage : ImageStageOutcome
  videoStage : VideoStageOutcome
  integrations : String → Option SocialIntegration
  publish : String → PubResult

/-- The Python return value of the task. -/
inductive TaskRetval
  | ok (contentItems : List ItemOut) (platformContents : List (String × String))
      (content : String)
  | errorResult (error : String)
  deriving Repr, DecidableEq

/-- Observable effect of one run of `execute_content_creation`: the final
execution row, the inserted `ContentItem` rows, the successive values
written to `execution.status`, the channels whose publisher was actually
invoked, and the task's return value. -/
structure RunOutput where
  record : ExecRecord
  contentRows : List ContentRow
  statusWrites : List String
  publishCalls : List String
  retval : TaskRetval

/-- Step-1 ledger entry (lines 916-941): PASSED exactly when at least one
chunk was retrieved (the helper returns `success=False` with count 0 on
exception, so the count determines the entry). -/
def ragTask (n : Nat) : TaskEntry :=
  if 0 < n then ⟨"RAG Retrieval", "PASSED", "Retrieved " ++ toString n ++ " relevant chunks"⟩
  else ⟨"RAG Retrieval", "FAILED", "No chunks retrieved"⟩

/-- Step-2 ledger entry (lines 944-988). -/
def keywordTask : Except String Nat → TaskEntry
  | .ok n => ⟨"Keyword Research", "PASSED", "Found " ++ toString n ++ " keywords"⟩
  | .error e => ⟨"Keyword Research", "FAILED", e⟩

/-- Whether the per-platform generation call stores content for `p`:
the call returned (no exception) a string that is truthy and whose
`.strip()` is truthy (line 1010). -/
def genOk (env : PipelineEnv) (p : String) : Bool :=
  match env.genContent p with
  | .ok s => pyStrip s ≠ ""
  | .error _ => false

/-- The `platform_contents` dict built by the per-platform generation loop
(lines 996-1019), in platform order. -/
def platformContentsOf (env : PipelineEnv) (platforms : List String) :
    List (String × String) :=
  platforms.filterMap (fun p =>
    match env.genContent p with
    | .ok s => if pyStrip s ≠ "" then some (p, s) else none
    | .error _ => none)

/-- Step 3 (lines 990-1043): per-platform branch when `platforms` is truthy,
generic branch otherwise.  Returns `(platform_contents,
content_generation_passed, content_generation_failed)`.  Note the generic
branch fills `platform_contents` by looping over the (empty) `platforms`
list, so it never stores anything. -/
def contentPhase (env : PipelineEnv) (platforms : List String) :
    List (String × String) × Nat × Nat :=
  if platforms.isEmpty then
    match env.genGeneric with
    | .ok s => if pyStrip s ≠ "" then ([], 1, 0) else ([], 0, 1)
    | .error _ => ([], 0, 1)
  else
    (platformContentsOf env platforms,
     platforms.countP (genOk env),
     platforms.countP (fun p => ! genOk env p))

/-- Summary ledger entries appended after the generation loop
(lines 1046-1049). -/
def contentGenTasks (passed failed : Nat) : List TaskEntry :=
  (if 0 < passed then
    [⟨"Content Generation", "PASSED", toString passed ++ " platform(s) succeeded"⟩]
   else []) ++
  (if 0 < failed then
    [⟨"Content Generation", "PARTIAL", toString failed ++ " platform(s) failed"⟩]
   else [])

/-- Step 4, images (lines 1080-1137): returns `image_urls` and the ledger
entry. -/
def imagePhase (env : PipelineEnv) (includeImages : Bool) :
    List String × TaskEntry :=
  if includeImages then
    match env.imageStage with
    | .generated uploads =>
        let urls := uploads.filterMap id
        if 0 < urls.length then
          (urls, ⟨"Image Generation", "PASSED",
                  toString urls.length ++ " image(s) generated and uploaded"⟩)
        else
          (urls, ⟨"Image Generation", "FAILED", "Images generated but upload failed"⟩)
    | .notImplemented =>
        ([], ⟨"Image Generation", "SKIPPED", "Not available for current LLM provider"⟩)
    | .genError e => ([], ⟨"Image Generation", "FAILED", e⟩)
  else ([], ⟨"Image Generation", "SKIPPED", "Not requested"⟩)

/-- Step 4, video (lines 1139-1186): returns `video_urls` and the ledger
entry. -/
def videoPhase (env : PipelineEnv) (includeVideo : Bool) :
    List String × TaskEntry :=
  if includeVideo then
    match env.videoStage with
    | .generated (some url) =>
        ([url], ⟨"Video Generation", "PASSED", "Video generated and uploaded"⟩)
    | .generated none =>
        ([], ⟨"Video Generation", "FAILED", "Video generated but upload failed"⟩)
    | .genError e => ([], ⟨"Video Generation", "FAILED", e⟩)
  else ([], ⟨"Video Generation", "SKIPPED", "Not requested"⟩)

/-- Outcome of the platform-specific credential extraction: either the
branch appends a `failed` item and `continue`s, or posting proceeds. -/
inductive PrepOutcome
  | notReady (err : String)
  | ready
  deriving Repr, DecidableEq

/-- Default-or-first page selection (lines 1253-1269). -/
def selectedFbPage (pages : List FbPage) : Option FbPage :=
  match pages.find? (·.isDefault) with
  | some pg => some pg
  | none => pages.head?

/-- Facebook parameter extraction (lines 1241-1302). -/
def fbPrep (integ : SocialIntegration) : PrepOutcome :=
  if integ.pages.isEmpty then .notReady "Facebook pages not found in integration"
  else
    match selectedFbPage integ.pages with
    | none => .notReady "No page data found in integration"
    | some pg =>
        if strTruthy (pyOr pg.idField pg.pageIdField) then .ready
        else .notReady "Facebook page_id not found"

/-- Instagram parameter extraction (lines 1304-1342): `profile_data["id"]`,
then the first page with a truthy `instagram_business_account` (taking its
inner `id`, which may itself be missing), then the `meta_data` chain, then
`platform_user_id`. -/
def igPrep (integ : SocialIntegration) : PrepOutcome :=
  let igFromPages : Option String :=
    match integ.pages.find? (fun pg => pg.igBusinessAccount.isSome) with
    | some pg => pg.igBusinessAccount.getD none
    | none => none
  let igUserId :=
    pyOr (pyOr (pyOr integ.profileDataId igFromPages) integ.metaIgUserId)
      integ.platformUserId
  if strTruthy igUserId then .ready else .notReady "Instagram user_id not found"

/-- Default-or-first organization selection (lines 1351-1367). -/
def selectedLiOrg (orgs : List LiOrg) : Option LiOrg :=
  match orgs.find? (·.isDefault) with
  | some org => some org
  | none => orgs.head?

/-- LinkedIn parameter extraction (lines 1344-1425).  The URN normalisation
of lines 1399-1421 rewrites the entity string in place and cannot change the
proceed/continue decision, so it is not represented. -/
def liPrep (integ : SocialIntegration) : PrepOutcome :=
  let fromOrg : Option String :=
    match selectedLiOrg integ.organizations with
    | some org => pyOr (pyOr org.idField org.entityIdField) org.orgIdField
    | none => none
  let entityId := pyOr (pyOr fromOrg integ.metaEntityId) integ.platformUserId
  if strTruthy entityId then .ready else .notReady "LinkedIn entity_id not found"

/-- Twitter parameter extraction (lines 1427-1438). -/
def twPrep (integ : SocialIntegration) : PrepOutcome :=
  if strTruthy integ.accessToken then .ready
  else .notReady "Twitter access_token not found"

/-- `url.endswith(('.mp4', '.mov', '.avi'))`. -/
def isVideoUrl (u : String) : Bool :=
  pyEndsWith u ".mp4" || pyEndsWith u ".mov" || pyEndsWith u ".avi"

/-- TikTok parameter extraction (lines 1440-1460). -/
def ttPrep (integ : SocialIntegration) (allMediaUrls : List String) : PrepOutcome :=
  if ¬ strTruthy integ.accessToken then .notReady "TikTok access_token not found"
  else if allMediaUrls.isEmpty ∨ ¬ allMediaUrls.any isVideoUrl then
    .notReady "TikTok requires a video URL"
  else .ready

/-- Platform dispatch of the extraction step; platforms other than the five
known ones have no extraction branch and fall through. -/
def prepPlatform (p : String) (integ : SocialIntegration)
    (allMediaUrls : List String) : PrepOutcome :=
  if p = "facebook" then fbPrep integ
  else if p = "instagram" then igPrep integ
  else if p = "linkedin" then liPrep integ
  else if p = "twitter" then twPrep integ
  else if p = "tiktok" then ttPrep integ allMediaUrls
  else .ready

/-- Which posting counter (if any) one loop iteration increments.  The
extraction `continue` paths append a failed item but increment none of
`posting_passed`/`posting_failed`/`posting_skipped`. -/
inductive PostCounter
  | passedCtr
  | failedCtr
  | skippedCtr
  | notCounted
  deriving Repr, DecidableEq

/-- Observable outcome of one iteration of the posting loop. -/
structure PlatformOutcome where
  item : ItemOut
  row : Option ContentRow
  counter : PostCounter
  publishCalled : Bool
  deriving Repr, DecidableEq

/-- One iteration of the `for platform in platforms` posting loop
(lines 1196-1546). -/
def postOnePlatform (env : PipelineEnv) (pcs : List (String × String))
    (imageUrls videoUrls : List String) (p : String) : PlatformOutcome :=
  let allMediaUrls := imageUrls ++ videoUrls
  let generatedContent := (pcs.lookup p).getD ""
  if generatedContent = "" then
    ⟨⟨p, "skipped", some "No content generated for this platform", none⟩,
     none, .skippedCtr, false⟩
  else
    match env.integrations p with
    | none =>
        ⟨⟨p, "skipped", some "No active integration found", none⟩,
         none, .skippedCtr, false⟩
    | some integ =>
        match prepPlatform p integ allMediaUrls with
        | .notReady err => ⟨⟨p, "failed", some err, none⟩, none, .notCounted, false⟩
        | .ready =>
            if ¬ strTruthy integ.accessToken then
              ⟨⟨p, "failed", some "Access token not found", none⟩,
               none, .notCounted, false⟩
            else
              let r := env.publish p
              if r.success then
                ⟨⟨p, "published", none, r.postId⟩,
                 some ⟨p, generatedContent, "published", r.postId, imageUrls, videoUrls⟩,
                 .passedCtr, true⟩
              else
                ⟨⟨p, "failed", some (r.error.getD "Unknown error"), none⟩,
                 none, .failedCtr, true⟩

/-- The whole posting loop, in platform order. -/
def postingPhase (env : PipelineEnv) (pcs : List (String × String))
    (imageUrls videoUrls : List String) (platforms : List String) :
    List PlatformOutcome :=
  platforms.map (postOnePlatform env pcs imageUrls videoUrls)

/-- The posting-summary ledger entry (lines 1552-1557), appended only when
some counter is positive. -/
def postingSummary (p f s : Nat) : List TaskEntry :=
  if 0 < p ∨ 0 < f ∨ 0 < s then
    [⟨"Platform Posting", if 0 < f ∨ 0 < s then "PARTIAL" else "PASSED",
      toString p ++ " passed, " ++ toString f ++ " failed, " ++ toString s ++ " skipped"⟩]
  else []

/-- `summary_content` (lines 1584-1588): content of the first requested
platform that has truthy generated content. -/
def firstContent (platforms : List String) (pcs : List (String × String)) : String :=
  match platforms.find? (fun p => strTruthy (pcs.lookup p)) with
  | some p => (pcs.lookup p).getD ""
  | none => ""

/-- `int((completed_at - started_at).total_seconds() * 1000)` when
`started_at` is set. -/
def execMs (startedAt : Option Nat) (tEnd : Nat) : Option Nat :=
  match startedAt with
  | some t0 => some (tEnd - t0)
  | none => none

/-- The task `execute_content_creation` (lines 832-1664), for a present
execution row.  The entry block unconditionally writes `status="running"`
(line 879) and sets `started_at` only if unset; the all-generation-failed
branch (lines 1051-1073) terminates the row `failed` without reaching the
media or posting steps; otherwise finalization (lines 1590-1630)
unconditionally writes `status="completed"` with the aggregated result. -/
def executeContentCreation (env : PipelineEnv) (rec0 : ExecRecord)
    (req : RequestData) : RunOutput :=
  let rec1 : ExecRecord := { rec0 with
    status := "running"
    startedAt := some (rec0.startedAt.getD env.tStart) }
  let phase := contentPhase env req.platforms
  let pcs := phase.1
  let tasks1 := [ragTask env.ragChunkCount, keywordTask env.keywordOutcome] ++
    contentGenTasks phase.2.1 phase.2.2
  if pcs.isEmpty ∨ pcs.all (fun q => q.2 = "") then
    let failMsg := "Content generation returned empty result for all platforms"
    { record := { rec1 with
        status := "failed"
        errorMessage := some failMsg
        completedAt := some env.tEnd
        executionTimeMs := execMs rec1.startedAt env.tEnd }
      contentRows := []
      statusWrites := ["running", "failed"]
      publishCalls := []
      retval := .errorResult failMsg }
  else
    let img := imagePhase env req.includeImages
    let vid := videoPhase env req.includeVideo
    let tasks2 := tasks1 ++ [img.2, vid.2]
    let outcomes := postingPhase env pcs img.1 vid.1 req.platforms
    let items := outcomes.map (·.item)
    let postingPassed := outcomes.countP (fun o =>
      match o.counter with | .passedCtr => true | _ => false)
    let postingFailed := outcomes.countP (fun o =>
      match o.counter with | .failedCtr => true | _ => false)
    let postingSkipped := outcomes.countP (fun o =>
      match o.counter with | .skippedCtr => true | _ => false)
    let tasks3 := tasks2 ++ postingSummary postingPassed postingFailed postingSkipped
    let summaryContent := firstContent req.platforms pcs
    let resultPayload : ExecResult := {
      content := summaryContent
      platformContents := pcs
      contentItems := items
      imagesGenerated := img.1.length
      videosGenerated := vid.1.length
      platformsPosted := items.filterMap (fun it =>
        if it.status = "published" then some it.platform else none)
      taskSummary := {
        totalTasks := tasks3.length
        passed := tasks3.countP (fun e => e.status = "PASSED")
        failed := tasks3.countP (fun e => e.status = "FAILED")
        skipped := tasks3.countP (fun e => e.status = "SKIPPED")
        partialCount := tasks3.countP (fun e => e.status = "PARTIAL")
        tasks := tasks3 } }
    { record := { rec1 with
        status := "completed"
        completedAt := some env.tEnd
        executionTimeMs := execMs rec1.startedAt env.tEnd
        result := some resultPayload
        stepsExecuted := []
        toolsUsed := [] }
      contentRows := (outcomes.map (·.row)).reduceOption
      statusWrites := ["running", "completed"]
      publishCalls := outcomes.filterMap (fun o =>
        if o.publishCalled then some o.item.platform else none)
      retval := .ok items pcs summaryContent }

/-! ## Concrete environments and records used by counterexamples and
witnesses -/

/-- Environment in which every content-generation call raises. -/
def cexEnvAllGenFail : PipelineEnv where
  tStart := 5000
  tEnd := 6000
  ragChunkCount := 0
  keywordOutcome := .error "serp unavailable"
  genContent := fun _ => .error "llm unavailable"
  genGeneric := .error "llm unavailable"
  imageStage := .genError "not attempted"
  videoStage := .genError "not attempted"
  integrations := fun _ => none
  publish := fun _ => ⟨false, none, none⟩

/-- A stored result payload of a previously completed run. -/
def cexStoredResult : ExecResult where
  content := "old post"
  platformContents := [("twitter", "old post")]
  contentItems := [⟨"twitter", "published", none, some "123"⟩]
  imagesGenerated := 0
  videosGenerated := 0
  platformsPosted := ["twitter"]
  taskSummary := ⟨0, 0, 0, 0, 0, []⟩

/-- An execution row already in terminal state `completed`. -/
def cexRecCompleted : ExecRecord where
  requestType := "create_content"
  status := "completed"
  startedAt := some 1000
  completedAt := some 2000
  executionTimeMs := some 1000
  result := some cexStoredResult
  errorMessage := none
  stepsExecuted := []
  toolsUsed := []

/-- A freshly queued execution row. -/
def cexRecQueued : ExecRecord where
  requestType := "create_content"
  status := "queued"
  startedAt := none
  completedAt := none
  executionTimeMs := none
  result := none
  errorMessage := none
  stepsExecuted := []
  toolsUsed := []

/-- A single-channel request payload. -/
def cexReqTwitter : RequestData where
  request := "write a post"
  platforms := ["twitter"]
  includeImages := false
  includeVideo := false

/-- A Twitter integration row carrying only an access token. -/
def cexTwitterIntegration : SocialIntegration where
  accessToken := some "token"
  pages := []
  profileDataId := none
  metaIgUserId := none
  organizations := []
  metaEntityId := none
  platformUserId := none

/-- Environment in which generation succeeds for every channel but every
publish attempt fails. -/
def cexEnvPublishFail : PipelineEnv where
  tStart := 100
  tEnd := 200
  ragChunkCount := 2
  keywordOutcome := .ok 3
  genContent := fun _ => .ok "tweet text"
  genGeneric := .ok "tweet text"
  imageStage := .genError "not attempted"
  videoStage := .genError "not attempted"
  integrations := fun _ => some cexTwitterIntegration
  publish := fun _ => ⟨false, none, some "rate limited"⟩

/-! ## API-side dispatch (`execute_agent`) and the execution service -/

/-- `AgentExecutionService.create_execution` (agent_execution_service.py
lines 22-47): a fresh row in `queued` with no timestamps, result or error. -/
def createExecution (requestType : String) : ExecRecord where
  requestType := requestType
  status := "queued"
  startedAt := none
  completedAt := none
  executionTimeMs := none
  result := none
  errorMessage := none
  stepsExecuted := []
  toolsUsed := []

/-- `AgentExecutionService.update_execution` (lines 49-104), restricted to
the `status` and `error_message` parameters used at the dispatch call site
(all other optional parameters are `None` there and leave the row
unchanged).  A truthy `status` is written; `started_at` is set only on a
transition to `running` when unset; `completed_at` (and the duration when
`started_at` is set) only on a transition into a terminal status. -/
def updateExecution (rec : ExecRecord) (now : Nat) (status : Option String)
    (errorMessage : Option String) : ExecRecord :=
  let rec1 :=
    if strTruthy status then
      let st := status.getD ""
      let rec2 := { rec with status := st }
      if st = "running" ∧ rec.startedAt = none then
        { rec2 with startedAt := some now }
      else if st = "completed" ∨ st = "failed" ∨ st = "cancelled" then
        let rec3 := { rec2 with completedAt := some now }
        match rec.startedAt with
        | some t0 => { rec3 with executionTimeMs := some (now - t0) }
        | none => rec3
      else rec2
    else rec
  match errorMessage with
  | some e => { rec1 with errorMessage := some e }
  | none => rec1

/-- The request-type dispatch of `execute_agent` (api/v1/agents.py lines
73-104): the two known request types enqueue a worker task and leave the
fresh record untouched; any other type marks it failed immediately without
enqueueing anything.  Returns the record and the enqueued task names. -/
def executeAgentDispatch (requestType : String) (rec : ExecRecord) (now : Nat) :
    ExecRecord × List String :=
  if requestType = "create_content" then (rec, ["content.create_execution"])
  else if requestType = "create_campaign" then (rec, ["campaign.create_execution"])
  else
    (updateExecution rec now (some "failed")
      (some ("Request type \x27" ++ requestType ++ "\x27 not yet implemented")), [])

/-! ## The schedule worker `execute_scheduled_post` and the poller -/

/-- A `ScheduledPost` row (models/content.py lines 62-109), restricted to
the fields the worker reads or writes. -/
structure Schedule where
  isActive : Bool
  status : String
  scheduleType : String
  scheduleConfig : ScheduleConfig
  platforms : List String
  request : String
  includeImages : Bool
  includeVideo : Bool
  startDate : PyDateTime
  endDate : Option PyDateTime
  nextRunAt : PyDateTime
  lastRunAt : Option PyDateTime
  totalRuns : Nat
  successfulRuns : Nat
  failedRuns : Nat
  deriving Repr, DecidableEq

/-- Observable outcome of one `execute_scheduled_post` invocation: the
updated schedule row, whether an execution record was created and a
content-creation job enqueued, and the returned success flag / error. -/
structure ScheduleExecOutcome where
  sched : Schedule
  dispatched : Bool
  ok : Bool
  errorMsg : Option String
  deriving Repr, DecidableEq

/-- The try-body of `execute_scheduled_post` (scheduled_posts.py lines
107-205), for a present schedule row:
* an inactive or non-`active` schedule returns unchanged (lines 120-122);
* an empty platform list marks the schedule `failed`/inactive (125-130);
* otherwise an execution record is created and the content-creation task
  enqueued (133-167), then `last_run_at`/`total_runs`/`successful_runs`
  are updated (170-172) and `next_run_at` recomputed (175-193): a `some`
  next run is stored (completing/deactivating when it falls after
  `end_date`); `none` (one-time) completes and deactivates, leaving
  `next_run_at` untouched. -/
def executeScheduledPost (s : Schedule) (now : PyDateTime) : ScheduleExecOutcome :=
  if ¬ s.isActive ∨ s.status ≠ "active" then
    ⟨s, false, false, some "Scheduled post is not active"⟩
  else if s.platforms.isEmpty then
    ⟨{ s with status := "failed", isActive := false }, false, false,
      some "No platforms configured"⟩
  else
    let s1 := { s with
      lastRunAt := some now
      totalRuns := s.totalRuns + 1
      successfulRuns := s.successfulRuns + 1 }
    match calculateNextRun s.scheduleType s.scheduleConfig now with
    | some nextRun =>
        let s2 := { s1 with nextRunAt := nextRun }
        match s.endDate with
        | some endDate =>
            if endDate.lt nextRun then
              ⟨{ s2 with status := "completed", isActive := false }, true, true, none⟩
            else ⟨s2, true, true, none⟩
        | none => ⟨s2, true, true, none⟩
    | none =>
        ⟨{ s1 with status := "completed", isActive := false }, true, true, none⟩

/-- The exception handler of `execute_scheduled_post` (lines 207-240):
increments `failed_runs` and `total_runs`, and force-terminates the
schedule once `failed_runs` reaches 5. -/
def recordFailure (s : Schedule) : Schedule :=
  let s1 := { s with failedRuns := s.failedRuns + 1, totalRuns := s.totalRuns + 1 }
  if 5 ≤ s1.failedRuns then { s1 with status := "failed", isActive := false }
  else s1

/-- The poller's due-query predicate (check_scheduled_posts, lines 33-42):
`is_active AND status = "active" AND next_run_at <= now AND (end_date IS
NULL OR end_date >= now)`. -/
def isDue (s : Schedule) (now : PyDateTime) : Bool :=
  s.isActive && s.status == "active" && decide (s.nextRunAt.le now) &&
    (match s.endDate with
     | none => true
     | some e => decide (now.le e))

/-- The poller marks a due schedule with no platforms `failed`/inactive
(check_scheduled_posts lines 59-64). -/
def pollMarkInvalid (s : Schedule) : Schedule :=
  { s with status := "failed", isActive := false }

/-- One worker-subsystem step on a schedule row: an
`execute_scheduled_post` invocation (with its early returns), its
exception handler, or the poller's invalid-configuration marking.  These
are the only writers of schedule rows in the worker module. -/
inductive ScheduleStep : Schedule → Schedule → Prop
  | execOk (s : Schedule) (now : PyDateTime) :
      ScheduleStep s (executeScheduledPost s now).sched
  | execFail (s : Schedule) : ScheduleStep s (recordFailure s)
  | pollInvalid (s : Schedule) (now : PyDateTime) (hdue : isDue s now = true)
      (hp : s.platforms.isEmpty = true) : ScheduleStep s (pollMarkInvalid s)

/-- Reachability through worker steps. -/
def ScheduleReaches : Schedule → Schedule → Prop :=
  Relation.ReflTransGen ScheduleStep

/-- Force-terminated: `status = "failed"` and inactive. -/
def Terminated (s : Schedule) : Prop :=
  s.status = "failed" ∧ s.isActive = false

/-- The dispatch payload enqueued for a schedule fire replays its request
template (lines 153-167). -/
def scheduleRequestData (s : Schedule) : RequestData where
  request := s.request
  platforms := s.platforms
  includeImages := s.includeImages
  includeVideo := s.includeVideo

/-- An active daily schedule whose `failed_runs` counter stands just below
the threshold. -/
def cexScheduleDaily : Schedule where
  isActive := true
  status := "active"
  scheduleType := "daily"
  scheduleConfig := { hour := 9, minute := 0 }
  platforms := ["twitter"]
  request := "write a post"
  includeImages := false
  includeVideo := false
  startDate := ⟨2025, 1, 1, 9, 0, 0, 0⟩
  endDate := none
  nextRunAt := ⟨2025, 1, 2, 9, 0, 0, 0⟩
  lastRunAt := none
  totalRuns := 6
  successfulRuns := 2
  failedRuns := 4

/-- An active one-time schedule. -/
def cexScheduleOneTime : Schedule where
  isActive := true
  status := "active"
  scheduleType := "one_time"
  scheduleConfig := { hour := 9, minute := 0 }
  platforms := ["twitter"]
  request := "write a post"
  includeImages := false
  includeVideo := false
  startDate := ⟨2025, 1, 1, 9, 0, 0, 0⟩
  endDate := none
  nextRunAt := ⟨2025, 1, 2, 9, 0, 0, 0⟩
  lastRunAt := none
  totalRuns := 0
  successfulRuns := 0
  failedRuns := 0

/-! ## Theorems -/

example : weekday 2025 1 1 = 2 := by decide

example : weekday 2024 2 15 = 3 := by decide

example : daysInMonth 2024 2 = 29 := by decide

example : daysInMonth 2025 2 = 28 := by decide

theorem daysInMonth_le_31 (y m : Nat) : daysInMonth y m ≤ 31 := by
  unfold daysInMonth
  split
  · split <;> omega
  · split <;> omega

theorem one_le_daysInMonth (y m : Nat) : 1 ≤ daysInMonth y m := by
  unfold daysInMonth
  split
  · split <;> omega
  · split <;> omega

theorem PyDateTime.dateOk_of_valid {t : PyDateTime} (h : t.valid) : t.dateOk := by
  obtain ⟨_, hm, _, hd, _⟩ := h
  exact ⟨hm, le_trans hd (daysInMonth_le_31 t.year t.month)⟩

theorem PyDateTime.nextDay_dateOk {t : PyDateTime} (h : t.dateOk) : t.nextDay.dateOk := by
  obtain ⟨hm, hd⟩ := h
  have hle := daysInMonth_le_31 t.year t.month
  unfold PyDateTime.nextDay PyDateTime.dateOk
  split
  · dsimp only; omega
  · split
    · dsimp only; omega
    · dsimp only; omega

theorem PyDateTime.nextDay_dateKey_lt {t : PyDateTime} (h : t.dateOk) :
    t.dateKey < t.nextDay.dateKey := by
  obtain ⟨hm, hd⟩ := h
  unfold PyDateTime.nextDay
  split
  · simp only [PyDateTime.dateKey]; omega
  · split
    · simp only [PyDateTime.dateKey]; omega
    · rename_i hlt hge
      have h12 : t.month = 12 := by omega
      simp only [PyDateTime.dateKey]
      rw [h12]; omega

theorem PyDateTime.addDays_dateOk {t : PyDateTime} (h : t.dateOk) (n : Nat) :
    (t.addDays n).dateOk := by
  induction n with
  | zero => exact h
  | succ k ih => exact PyDateTime.nextDay_dateOk ih

theorem PyDateTime.addDays_dateKey_le {t : PyDateTime} (h : t.dateOk) (n : Nat) :
    t.dateKey ≤ (t.addDays n).dateKey := by
  induction n with
  | zero => exact le_rfl
  | succ k ih =>
      exact le_trans ih
        (le_of_lt (PyDateTime.nextDay_dateKey_lt (PyDateTime.addDays_dateOk h k)))

theorem PyDateTime.addDays_dateKey_lt {t : PyDateTime} (h : t.dateOk) {n : Nat}
    (hn : 1 ≤ n) : t.dateKey < (t.addDays n).dateKey := by
  obtain ⟨k, rfl⟩ : ∃ k, n = k + 1 := ⟨n - 1, by omega⟩
  exact lt_of_le_of_lt (PyDateTime.addDays_dateKey_le h k)
    (PyDateTime.nextDay_dateKey_lt (PyDateTime.addDays_dateOk h k))

theorem PyDateTime.timeKey_lt_ticksPerDay {t : PyDateTime} (h : t.valid) :
    t.timeKey < ticksPerDay := by
  obtain ⟨_, _, _, _, hh, hmi, hs, hms⟩ := h
  unfold PyDateTime.timeKey ticksPerDay
  omega

theorem PyDateTime.lt_of_dateKey_lt {a b : PyDateTime} (ha : a.timeKey < ticksPerDay)
    (h : a.dateKey < b.dateKey) : a.lt b := by
  unfold PyDateTime.lt PyDateTime.key
  calc a.dateKey * ticksPerDay + a.timeKey
      < a.dateKey * ticksPerDay + ticksPerDay := by omega
    _ = (a.dateKey + 1) * ticksPerDay := by ring
    _ ≤ b.dateKey * ticksPerDay := Nat.mul_le_mul_right _ h
    _ ≤ b.dateKey * ticksPerDay + b.timeKey := Nat.le_add_right _ _

theorem PyDateTime.replaceTime_dateKey (t : PyDateTime) (h mi : Nat) :
    (t.replaceTime h mi).dateKey = t.dateKey := rfl

theorem PyDateTime.replaceTime_dateOk {t : PyDateTime} (ht : t.dateOk) (h mi : Nat) :
    (t.replaceTime h mi).dateOk := ht

theorem weekday_lt_7 (y m d : Nat) : weekday y m d < 7 :=
  Nat.mod_lt _ (by omega)

/-- Unfolding of `calculateNextRun` at type `"daily"`. -/
theorem calculateNextRun_daily (cfg : ScheduleConfig) (t : PyDateTime) :
    calculateNextRun "daily" cfg t =
      (if (t.replaceTime cfg.hour cfg.minute).le t then
        some ((t.replaceTime cfg.hour cfg.minute).addDays 1)
      else some (t.replaceTime cfg.hour cfg.minute)) := rfl

/-- Unfolding of `calculateNextRun` at type `"weekly"`. -/
theorem calculateNextRun_weekly (cfg : ScheduleConfig) (t : PyDateTime) :
    calculateNextRun "weekly" cfg t =
      (match weeklyFindDay cfg.daysOfWeek (weekday t.year t.month t.day) with
      | some day =>
          some ((t.replaceTime cfg.hour cfg.minute).addDays
            (day - weekday t.year t.month t.day))
      | none =>
          some ((t.replaceTime cfg.hour cfg.minute).addDays
            ((7 - weekday t.year t.month t.day) + listMin cfg.daysOfWeek))) := rfl

/-- Unfolding of `calculateNextRun` at type `"monthly"`. -/
theorem calculateNextRun_monthly (cfg : ScheduleConfig) (t : PyDateTime) :
    calculateNextRun "monthly" cfg t =
      (match monthlyFindDay cfg.daysOfMonth t.year t.month t.day with
      | some day =>
          some { t with
                  day := day
                  hour := cfg.hour
                  minute := cfg.minute
                  second := 0
                  microsecond := 0 }
      | none =>
          let firstDay := listMin cfg.daysOfMonth
          let nextMonth : PyDateTime :=
            if t.month = 12 then
              { t with
                  year := t.year + 1
                  month := 1
                  day := 1
                  hour := cfg.hour
                  minute := cfg.minute
                  second := 0
                  microsecond := 0 }
            else
              { t with
                  month := t.month + 1
                  day := 1
                  hour := cfg.hour
                  minute := cfg.minute
                  second := 0
                  microsecond := 0 }
          if 1 ≤ firstDay ∧ firstDay ≤ daysInMonth nextMonth.year nextMonth.month then
            some { nextMonth with day := firstDay }
          else
            some { nextMonth with day := min firstDay (daysInMonth nextMonth.year nextMonth.month) }) := rfl

theorem weeklyFindDay_some {days : List Nat} {cw day : Nat}
    (h : weeklyFindDay days cw = some day) : cw < day := by
  have := List.find?_some h
  simpa using this

theorem monthlyFindDay_some {days : List Nat} {y m cd day : Nat}
    (h : monthlyFindDay days y m cd = some day) :
    cd < day ∧ 1 ≤ day ∧ day ≤ daysInMonth y m := by
  have h2 := List.find?_some h
  simp only [Bool.and_eq_true, decide_eq_true_eq] at h2
  exact ⟨h2.1.1, h2.1.2, h2.2⟩

/-- The daily branch always advances strictly past `current_time`. -/
theorem daily_strictly_after (cfg : ScheduleConfig) (t : PyDateTime) (ht : t.valid) :
    strictlyAfter t (calculateNextRun "daily" cfg t) := by
  rw [calculateNextRun_daily]
  by_cases hc : (t.replaceTime cfg.hour cfg.minute).le t
  · rw [if_pos hc]
    show t.lt _
    apply PyDateTime.lt_of_dateKey_lt (PyDateTime.timeKey_lt_ticksPerDay ht)
    have h1 : (t.replaceTime cfg.hour cfg.minute).dateKey <
        ((t.replaceTime cfg.hour cfg.minute).addDays 1).dateKey :=
      PyDateTime.addDays_dateKey_lt
        (PyDateTime.replaceTime_dateOk (PyDateTime.dateOk_of_valid ht) _ _) le_rfl
    rwa [PyDateTime.replaceTime_dateKey] at h1
  · rw [if_neg hc]
    show t.lt _
    unfold PyDateTime.le at hc
    unfold PyDateTime.lt
    omega

/-- The weekly branch always advances strictly past `current_time`. -/
theorem weekly_strictly_after (cfg : ScheduleConfig) (t : PyDateTime) (ht : t.valid) :
    strictlyAfter t (calculateNextRun "weekly" cfg t) := by
  rw [calculateNextRun_weekly]
  have hcw := weekday_lt_7 t.year t.month t.day
  have hdo := PyDateTime.replaceTime_dateOk (PyDateTime.dateOk_of_valid ht) cfg.hour cfg.minute
  have htk := PyDateTime.timeKey_lt_ticksPerDay ht
  cases hfind : weeklyFindDay cfg.daysOfWeek (weekday t.year t.month t.day) with
  | some day =>
      have hday := weeklyFindDay_some hfind
      show t.lt _
      apply PyDateTime.lt_of_dateKey_lt htk
      have h1 := PyDateTime.addDays_dateKey_lt hdo
        (n := day - weekday t.year t.month t.day) (by omega)
      rwa [PyDateTime.replaceTime_dateKey] at h1
  | none =>
      show t.lt _
      apply PyDateTime.lt_of_dateKey_lt htk
      have h1 := PyDateTime.addDays_dateKey_lt hdo
        (n := (7 - weekday t.year t.month t.day) + listMin cfg.daysOfWeek) (by omega)
      rwa [PyDateTime.replaceTime_dateKey] at h1

/-- The monthly branch always advances strictly past `current_time`. -/
theorem monthly_strictly_after (cfg : ScheduleConfig) (t : PyDateTime) (ht : t.valid) :
    strictlyAfter t (calculateNextRun "monthly" cfg t) := by
  rw [calculateNextRun_monthly]
  have htk := PyDateTime.timeKey_lt_ticksPerDay ht
  have hdo := PyDateTime.dateOk_of_valid ht
  obtain ⟨hm12, hd31⟩ := hdo
  cases hfind : monthlyFindDay cfg.daysOfMonth t.year t.month t.day with
  | some day =>
      obtain ⟨hgt, _, _⟩ := monthlyFindDay_some hfind
      show t.lt _
      apply PyDateTime.lt_of_dateKey_lt htk
      simp only [PyDateTime.dateKey]
      omega
  | none =>
      dsimp only
      by_cases h12 : t.month = 12
      · rw [if_pos h12]
        split
        · show t.lt _
          apply PyDateTime.lt_of_dateKey_lt htk
          simp only [PyDateTime.dateKey]
          omega
        · show t.lt _
          apply PyDateTime.lt_of_dateKey_lt htk
          simp only [PyDateTime.dateKey]
          omega
      · rw [if_neg h12]
        split
        · show t.lt _
          apply PyDateTime.lt_of_dateKey_lt htk
          simp only [PyDateTime.dateKey]
          omega
        · show t.lt _
          apply PyDateTime.lt_of_dateKey_lt htk
          simp only [PyDateTime.dateKey]
          omega

/-- C3, counterexample: `_calculate_next_run("monthly", {days_of_month:[31],
hour:9, minute:0}, 2025-02-15 10:00)` does not return February 28 at the
configured time, contrary to the claim. -/
theorem c3_counterexample :
    calculateNextRun "monthly" { hour := 9, minute := 0, daysOfMonth := [31] }
      ⟨2025, 2, 15, 10, 0, 0, 0⟩ ≠ some ⟨2025, 2, 28, 9, 0, 0, 0⟩ := by decide

/-- C3, amended: from February 15 with `days_of_month=[31]` the code skips
day 31 inside February (the `datetime.replace` raises `ValueError`, caught
and skipped) and falls through to "first configured day of the next month",
which is valid in March — so it returns March 31 of the same year at the
configured hour and minute (both in a non-leap and in a leap year), not
February 28/29, not March 3, and not an error. -/
theorem c3_monthly_day31_from_feb15 :
    calculateNextRun "monthly" { hour := 9, minute := 0, daysOfMonth := [31] }
      ⟨2025, 2, 15, 10, 0, 0, 0⟩ = some ⟨2025, 3, 31, 9, 0, 0, 0⟩ ∧
    calculateNextRun "monthly" { hour := 9, minute := 0, daysOfMonth := [31] }
      ⟨2024, 2, 15, 10, 0, 0, 0⟩ = some ⟨2024, 3, 31, 9, 0, 0, 0⟩ := by decide

/-- C4, counterexample: on Wednesday 2025-01-01 (weekday index 2) with
`days_of_week=[1,3]`, `_calculate_next_run` does not return the Monday-indexed
day (index 1) of the following week (2025-01-06 09:00), contrary to the
claim. -/
theorem c4_counterexample :
    calculateNextRun "weekly" { hour := 9, minute := 0, daysOfWeek := [1, 3] }
      ⟨2025, 1, 1, 12, 30, 0, 0⟩ ≠ some ⟨2025, 1, 6, 9, 0, 0, 0⟩ := by decide

/-- C4, amended: from a Wednesday (weekday index 2) with `days_of_week=[1,3]`
the configured index 3 *is* strictly greater than 2, so the code fires on the
day of index 3 (Thursday) of the same week at the configured time — here
2025-01-02 09:00; it wraps to the following week only when no configured
index exceeds the current weekday. -/
theorem c4_weekly_from_wednesday :
    weekday 2025 1 1 = 2 ∧
    calculateNextRun "weekly" { hour := 9, minute := 0, daysOfWeek := [1, 3] }
      ⟨2025, 1, 1, 12, 30, 0, 0⟩ = some ⟨2025, 1, 2, 9, 0, 0, 0⟩ ∧
    weekday 2025 1 2 = 3 := by decide

/-- C5: for every schedule type among daily/weekly/monthly, every valid
configuration (hour 0..23, minute 0..59, nonempty `days_of_week ⊆ 0..6`,
nonempty `days_of_month ⊆ 1..31`) and every valid fromTime,
`_calculate_next_run` returns a timestamp strictly greater than fromTime. -/
theorem c5_next_run_strictly_future (scheduleType : String) (cfg : ScheduleConfig)
    (t : PyDateTime)
    (hst : scheduleType = "daily" ∨ scheduleType = "weekly" ∨ scheduleType = "monthly")
    (hcfg : cfg.validCfg) (ht : t.valid) :
    strictlyAfter t (calculateNextRun scheduleType cfg t) := by
  rcases hst with rfl | rfl | rfl
  · exact daily_strictly_after cfg t ht
  · exact weekly_strictly_after cfg t ht
  · exact monthly_strictly_after cfg t ht

/-- C5 witness: concrete instantiation at `"weekly"`, config
`{hour 9, minute 0, days_of_week [0,4], days_of_month [15]}` and fromTime
2025-06-15 14:30 (a Sunday). -/
theorem c5_next_run_strictly_future_witness :
    ("weekly" = "daily" ∨ "weekly" = "weekly" ∨ "weekly" = "monthly") ∧
    ScheduleConfig.validCfg
      { hour := 9, minute := 0, daysOfWeek := [0, 4], daysOfMonth := [15] } ∧
    PyDateTime.valid ⟨2025, 6, 15, 14, 30, 0, 0⟩ ∧
    strictlyAfter ⟨2025, 6, 15, 14, 30, 0, 0⟩
      (calculateNextRun "weekly"
        { hour := 9, minute := 0, daysOfWeek := [0, 4], daysOfMonth := [15] }
        ⟨2025, 6, 15, 14, 30, 0, 0⟩) :=
  ⟨Or.inr (Or.inl rfl), by decide, by decide,
    c5_next_run_strictly_future "weekly"
      { hour := 9, minute := 0, daysOfWeek := [0, 4], daysOfMonth := [15] }
      ⟨2025, 6, 15, 14, 30, 0, 0⟩ (Or.inr (Or.inl rfl)) (by decide) (by decide)⟩

/-! ## Behaviour of the pipeline's generation gate -/

/-- The body of the generation loop stores only pairs whose content strips
to a nonempty string. -/
theorem contentStore_eq_some (env : PipelineEnv) (p : String) (q : String × String)
    (h : (match env.genContent p with
      | .ok s => if pyStrip s ≠ "" then some (p, s) else none
      | .error _ => none) = some q) : q.2 ≠ "" := by
  revert h
  cases env.genContent p with
  | ok s =>
      dsimp only
      by_cases hs : pyStrip s ≠ ""
      · rw [if_pos hs]
        intro h
        cases h
        intro h0
        apply hs
        have hs2 : s = "" := h0
        rw [hs2]
        rfl
      · rw [if_neg hs]
        intro h
        cases h
  | error e =>
      intro h
      cases h

/-- The loop body stores nothing for `p` exactly when `genOk` is false. -/
theorem contentStore_eq_none_iff (env : PipelineEnv) (p : String) :
    ((match env.genContent p with
      | .ok s => if pyStrip s ≠ "" then some (p, s) else none
      | .error _ => none) = none) ↔ genOk env p = false := by
  unfold genOk
  cases env.genContent p with
  | ok s =>
      dsimp only
      by_cases hs : pyStrip s ≠ ""
      · simp [hs]
      · simp [hs]
  | error e => simp

theorem platformContentsOf_values (env : PipelineEnv) (ps : List String) :
    ∀ q ∈ platformContentsOf env ps, q.2 ≠ "" := by
  intro q hq
  unfold platformContentsOf at hq
  obtain ⟨p, _, hf⟩ := List.mem_filterMap.mp hq
  exact contentStore_eq_some env p q hf

theorem platformContentsOf_eq_nil_iff (env : PipelineEnv) (ps : List String) :
    platformContentsOf env ps = [] ↔ ∀ p ∈ ps, genOk env p = false := by
  unfold platformContentsOf
  rw [List.filterMap_eq_nil_iff]
  constructor
  · intro h p hp
    exact (contentStore_eq_none_iff env p).mp (h p hp)
  · intro h p hp
    exact (contentStore_eq_none_iff env p).mpr (h p hp)

theorem isEmpty_false_of_ne_nil {α : Type} {l : List α} (h : l ≠ []) :
    l.isEmpty = false := by
  cases l with
  | nil => exact absurd rfl h
  | cons a as => rfl

theorem contentPhase_fst (env : PipelineEnv) {ps : List String} (hps : ps ≠ []) :
    (contentPhase env ps).1 = platformContentsOf env ps := by
  unfold contentPhase
  rw [isEmpty_false_of_ne_nil hps]
  rfl

/-- The all-generation-failed early exit (content_creation.py lines
1051-1073): with a nonempty platform list and no successful generation, the
run terminates `failed` before the media and posting steps. -/
theorem executeContentCreation_early (env : PipelineEnv) (rec0 : ExecRecord)
    (req : RequestData) (hps : req.platforms ≠ [])
    (hall : ∀ p ∈ req.platforms, genOk env p = false) :
    executeContentCreation env rec0 req =
      { record := { rec0 with
          status := "failed"
          startedAt := some (rec0.startedAt.getD env.tStart)
          errorMessage := some "Content generation returned empty result for all platforms"
          completedAt := some env.tEnd
          executionTimeMs := some (env.tEnd - rec0.startedAt.getD env.tStart) }
        contentRows := []
        statusWrites := ["running", "failed"]
        publishCalls := []
        retval := .errorResult "Content generation returned empty result for all platforms" } := by
  have hnil : platformContentsOf env req.platforms = [] :=
    (platformContentsOf_eq_nil_iff env req.platforms).mpr hall
  unfold executeContentCreation
  dsimp only
  rw [contentPhase_fst env hps, hnil]
  simp only [List.isEmpty_nil, List.all_nil, true_or, if_true]
  rfl

/-- With at least one successful generation the run reaches finalization,
which writes `status="completed"` regardless of the publish outcomes. -/
theorem executeContentCreation_completed (env : PipelineEnv) (rec0 : ExecRecord)
    (req : RequestData) (hex : ∃ p ∈ req.platforms, genOk env p = true) :
    (executeContentCreation env rec0 req).record.status = "completed" := by
  have hps : req.platforms ≠ [] := by
    intro h0
    rw [h0] at hex
    obtain ⟨p, hp, _⟩ := hex
    exact absurd hp (List.not_mem_nil p)
  have hne : platformContentsOf env req.platforms ≠ [] := by
    intro h0
    obtain ⟨p, hp, hgp⟩ := hex
    have := (platformContentsOf_eq_nil_iff env req.platforms).mp h0 p hp
    rw [this] at hgp
    cases hgp
  have hval := platformContentsOf_values env req.platforms
  have hcond : ¬ ((platformContentsOf env req.platforms).isEmpty = true ∨
      (platformContentsOf env req.platforms).all (fun q => q.2 = "") = true) := by
    intro hor
    cases hor with
    | inl h1 => exact hne (List.isEmpty_iff.mp h1)
    | inr h2 =>
        obtain ⟨q, hq⟩ := List.exists_mem_of_ne_nil _ hne
        have := List.all_eq_true.mp h2 q hq
        exact hval q hq (by simpa using this)
  unfold executeContentCreation
  dsimp only
  rw [contentPhase_fst env hps]
  rw [if_neg hcond]

/-- C1, counterexample: on an execution row already `completed`, the task
writes `running` and re-runs the pipeline; in an environment where
generation now fails, status and `completed_at` are overwritten and the
return value is not the stored result. -/
theorem c1_counterexample :
    cexRecCompleted.status = "completed" ∧
    (executeContentCreation cexEnvAllGenFail cexRecCompleted cexReqTwitter).statusWrites =
      ["running", "failed"] ∧
    (executeContentCreation cexEnvAllGenFail cexRecCompleted cexReqTwitter).record.status =
      "failed" ∧
    (executeContentCreation cexEnvAllGenFail cexRecCompleted cexReqTwitter).record.completedAt ≠
      cexRecCompleted.completedAt ∧
    (executeContentCreation cexEnvAllGenFail cexRecCompleted cexReqTwitter).retval ≠
      .ok cexStoredResult.contentItems cexStoredResult.platformContents
        cexStoredResult.content := by
  decide

/-- C1, amended: `execute_content_creation` has no idempotence guard.  On a
record whose status is already terminal it first writes `status="running"`
(lines 879-882, preserving only `started_at`), and the whole observable
outcome equals that of a fresh run on the same record reset to `queued`:
the prior status does not influence the run, and the re-run's own terminal
writes replace status, `completed_at` and (on success) `result`. -/
theorem c1_rerun_reexecutes (env : PipelineEnv) (rec : ExecRecord) (req : RequestData)
    (h : rec.status = "completed" ∨ rec.status = "failed") :
    (executeContentCreation env rec req).statusWrites.head? = some "running" ∧
    executeContentCreation env rec req =
      executeContentCreation env { rec with status := "queued" } req := by
  refine ⟨?_, rfl⟩
  unfold executeContentCreation
  dsimp only
  split
  · rfl
  · rfl

/-- C1 witness: the amended statement at the concrete completed record. -/
theorem c1_rerun_reexecutes_witness :
    (cexRecCompleted.status = "completed" ∨ cexRecCompleted.status = "failed") ∧
    ((executeContentCreation cexEnvAllGenFail cexRecCompleted cexReqTwitter).statusWrites.head? =
        some "running" ∧
      executeContentCreation cexEnvAllGenFail cexRecCompleted cexReqTwitter =
        executeContentCreation cexEnvAllGenFail
          { cexRecCompleted with status := "queued" } cexReqTwitter) :=
  ⟨Or.inl rfl,
    c1_rerun_reexecutes cexEnvAllGenFail cexRecCompleted cexReqTwitter (Or.inl rfl)⟩

/-- C2, counterexample: one requested channel, content generated, publish
fails — the record still ends `completed` (not `failed`), with zero
published channels, contrary to the claimed equivalence. -/
theorem c2_counterexample :
    (executeContentCreation cexEnvPublishFail cexRecQueued cexReqTwitter).record.status =
      "completed" ∧
    (executeContentCreation cexEnvPublishFail cexRecQueued cexReqTwitter).record.result.map
      (fun r => r.contentItems) = some [⟨"twitter", "failed", some "rate limited", none⟩] ∧
    (executeContentCreation cexEnvPublishFail cexRecQueued cexReqTwitter).record.result.map
      (fun r => r.platformsPosted) = some [] := by
  decide

/-- C2, amended: with a nonempty requested-channel list the terminal status
is `completed` iff content generation succeeded for at least one channel;
publish outcomes play no role (finalization, lines 1590-1620, writes
`completed` unconditionally once any content exists).  When generation
fails for every channel the record ends `failed` with the explanatory
message. -/
theorem c2_completed_iff_generated (env : PipelineEnv) (rec : ExecRecord)
    (req : RequestData) (hps : req.platforms ≠ []) :
    ((executeContentCreation env rec req).record.status = "completed" ↔
      ∃ p ∈ req.platforms, genOk env p = true) ∧
    ((∀ p ∈ req.platforms, genOk env p = false) →
      (executeContentCreation env rec req).record.status = "failed" ∧
      (executeContentCreation env rec req).record.errorMessage =
        some "Content generation returned empty result for all platforms") := by
  constructor
  · constructor
    · intro hcomp
      by_contra hno
      push_neg at hno
      have hall : ∀ p ∈ req.platforms, genOk env p = false := by
        intro p hp
        have := hno p hp
        simpa using this
      rw [executeContentCreation_early env rec req hps hall] at hcomp
      dsimp only at hcomp
      exact absurd hcomp (by decide)
    · exact executeContentCreation_completed env rec req
  · intro hall
    rw [executeContentCreation_early env rec req hps hall]
    exact ⟨rfl, rfl⟩

/-- C2 witness: the amended statement at the publish-all-fail environment. -/
theorem c2_completed_iff_generated_witness :
    cexReqTwitter.platforms ≠ [] ∧
    (((executeContentCreation cexEnvPublishFail cexRecQueued cexReqTwitter).record.status =
        "completed" ↔ ∃ p ∈ cexReqTwitter.platforms, genOk cexEnvPublishFail p = true) ∧
      ((∀ p ∈ cexReqTwitter.platforms, genOk cexEnvPublishFail p = false) →
        (executeContentCreation cexEnvPublishFail cexRecQueued cexReqTwitter).record.status =
          "failed" ∧
        (executeContentCreation cexEnvPublishFail cexRecQueued cexReqTwitter).record.errorMessage =
          some "Content generation returned empty result for all platforms")) :=
  ⟨by decide,
    c2_completed_iff_generated cexEnvPublishFail cexRecQueued cexReqTwitter (by decide)⟩

/-- C6: when content generation fails or returns empty content for every
requested channel, the record transitions to `failed` with the non-empty
explanatory `error_message` and `completed_at` set, no publisher is ever
invoked, and no content row is created. -/
theorem c6_all_generation_failed (env : PipelineEnv) (rec : ExecRecord)
    (req : RequestData) (hps : req.platforms ≠ [])
    (hall : ∀ p ∈ req.platforms, genOk env p = false) :
    (executeContentCreation env rec req).record.status = "failed" ∧
    (executeContentCreation env rec req).record.errorMessage =
      some "Content generation returned empty result for all platforms" ∧
    "Content generation returned empty result for all platforms" ≠ "" ∧
    (executeContentCreation env rec req).record.completedAt = some env.tEnd ∧
    (executeContentCreation env rec req).publishCalls = [] ∧
    (executeContentCreation env rec req).contentRows = [] := by
  rw [executeContentCreation_early env rec req hps hall]
  exact ⟨rfl, rfl, by decide, rfl, rfl, rfl⟩

/-- C6 witness: the statement at the all-generation-fail environment. -/
theorem c6_all_generation_failed_witness :
    cexReqTwitter.platforms ≠ [] ∧
    (∀ p ∈ cexReqTwitter.platforms, genOk cexEnvAllGenFail p = false) ∧
    ((executeContentCreation cexEnvAllGenFail cexRecQueued cexReqTwitter).record.status =
        "failed" ∧
      (executeContentCreation cexEnvAllGenFail cexRecQueued cexReqTwitter).record.errorMessage =
        some "Content generation returned empty result for all platforms" ∧
      "Content generation returned empty result for all platforms" ≠ "" ∧
      (executeContentCreation cexEnvAllGenFail cexRecQueued cexReqTwitter).record.completedAt =
        some cexEnvAllGenFail.tEnd ∧
      (executeContentCreation cexEnvAllGenFail cexRecQueued cexReqTwitter).publishCalls = [] ∧
      (executeContentCreation cexEnvAllGenFail cexRecQueued cexReqTwitter).contentRows = []) :=
  ⟨by decide, by decide,
    c6_all_generation_failed cexEnvAllGenFail cexRecQueued cexReqTwitter
      (by decide) (by decide)⟩

/-! ## Worker-subsystem invariants -/

theorem terminated_execOk {s : Schedule} (h : Terminated s) (now : PyDateTime) :
    Terminated (executeScheduledPost s now).sched := by
  obtain ⟨hst, hact⟩ := h
  unfold executeScheduledPost
  rw [if_pos (Or.inr (by rw [hst]; decide))]
  exact ⟨hst, hact⟩

theorem terminated_recordFailure {s : Schedule} (h : Terminated s) :
    Terminated (recordFailure s) := by
  obtain ⟨hst, hact⟩ := h
  unfold recordFailure
  dsimp only
  split
  · exact ⟨rfl, rfl⟩
  · exact ⟨hst, hact⟩

theorem terminated_step {s s' : Schedule} (h : Terminated s)
    (hs : ScheduleStep s s') : Terminated s' := by
  cases hs with
  | execOk now => exact terminated_execOk h now
  | execFail => exact terminated_recordFailure h
  | pollInvalid now hdue hp => exact ⟨rfl, rfl⟩

theorem terminated_reaches {s s' : Schedule} (h : Terminated s)
    (hr : ScheduleReaches s s') : Terminated s' := by
  induction hr with
  | refl => exact h
  | tail _ hstep ih => exact terminated_step ih hstep

theorem not_due_of_terminated {s : Schedule} (h : Terminated s)
    (now : PyDateTime) : isDue s now = false := by
  obtain ⟨hst, hact⟩ := h
  unfold isDue
  rw [hact, hst]
  rfl

/-- C7: once the failure handler takes `failed_runs` to the threshold 5, it
sets `status="failed"` and `is_active=false`, and from then on no sequence
of worker steps ever makes the poller\x27s due-query select the schedule
again. -/
theorem c7_threshold_deactivates_forever (s : Schedule) (h : 4 ≤ s.failedRuns) :
    Terminated (recordFailure s) ∧
    ∀ s', ScheduleReaches (recordFailure s) s' →
      ∀ now, isDue s' now = false := by
  have hterm : Terminated (recordFailure s) := by
    unfold recordFailure
    dsimp only
    rw [if_pos (by omega)]
    exact ⟨rfl, rfl⟩
  exact ⟨hterm, fun s' hr now => not_due_of_terminated (terminated_reaches hterm hr) now⟩

/-- C7 witness: the schedule with `failed_runs = 4` whose next failure
reaches the threshold. -/
theorem c7_threshold_deactivates_forever_witness :
    4 ≤ cexScheduleDaily.failedRuns ∧
    (Terminated (recordFailure cexScheduleDaily) ∧
      ∀ s', ScheduleReaches (recordFailure cexScheduleDaily) s' →
        ∀ now, isDue s' now = false) :=
  ⟨by decide, c7_threshold_deactivates_forever cexScheduleDaily (by decide)⟩

/-- C8: a request whose `request_type` is neither `create_content` nor
`create_campaign` goes `queued → failed` directly: the fresh record is
failed with the explanatory error message and `completed_at` set while
`started_at` remains unset (it is only written on a transition to
`running`, which never happens), and no worker task is enqueued. -/
theorem c8_unknown_request_type (requestType : String) (now : Nat)
    (h1 : requestType ≠ "create_content") (h2 : requestType ≠ "create_campaign") :
    (createExecution requestType).status = "queued" ∧
    (executeAgentDispatch requestType (createExecution requestType) now).1.status =
      "failed" ∧
    (executeAgentDispatch requestType (createExecution requestType) now).1.startedAt =
      none ∧
    (executeAgentDispatch requestType (createExecution requestType) now).1.completedAt =
      some now ∧
    (executeAgentDispatch requestType (createExecution requestType) now).1.errorMessage =
      some ("Request type \x27" ++ requestType ++ "\x27 not yet implemented") ∧
    (executeAgentDispatch requestType (createExecution requestType) now).2 = [] := by
  unfold executeAgentDispatch
  rw [if_neg h1, if_neg h2]
  exact ⟨rfl, rfl, rfl, rfl, rfl, rfl⟩

/-- C8 witness: a `generate_report` request is rejected immediately. -/
theorem c8_unknown_request_type_witness :
    ("generate_report" ≠ "create_content") ∧ ("generate_report" ≠ "create_campaign") ∧
    ((createExecution "generate_report").status = "queued" ∧
      (executeAgentDispatch "generate_report" (createExecution "generate_report") 42).1.status =
        "failed" ∧
      (executeAgentDispatch "generate_report" (createExecution "generate_report") 42).1.startedAt =
        none ∧
      (executeAgentDispatch "generate_report" (createExecution "generate_report") 42).1.completedAt =
        some 42 ∧
      (executeAgentDispatch "generate_report" (createExecution "generate_report") 42).1.errorMessage =
        some ("Request type \x27" ++ "generate_report" ++ "\x27 not yet implemented") ∧
      (executeAgentDispatch "generate_report" (createExecution "generate_report") 42).2 = []) :=
  ⟨by decide, by decide,
    c8_unknown_request_type "generate_report" 42 (by decide) (by decide)⟩

/-- `l ≠ []` refutes the Bool coercion of `l.isEmpty`. -/
theorem isEmpty_not_true_of_ne_nil {α : Type} {l : List α} (h : l ≠ []) :
    ¬ (l.isEmpty = true) := by
  rw [isEmpty_false_of_ne_nil h]
  simp

/-- C9: a `one_time` schedule that fires successfully transitions to
`status="completed"`, `is_active=false`; `next_run_at` is left untouched
because `_calculate_next_run` returns `None` for `one_time`; and every
field other than status, activity, `last_run_at` and the run counters is
unchanged. -/
theorem c9_one_time_completes (s : Schedule) (now : PyDateTime)
    (hact : s.isActive = true) (hst : s.status = "active")
    (hty : s.scheduleType = "one_time") (hp : s.platforms ≠ []) :
    calculateNextRun s.scheduleType s.scheduleConfig now = none ∧
    (executeScheduledPost s now).sched.status = "completed" ∧
    (executeScheduledPost s now).sched.isActive = false ∧
    (executeScheduledPost s now).sched.nextRunAt = s.nextRunAt ∧
    (executeScheduledPost s now).sched.lastRunAt = some now ∧
    (executeScheduledPost s now).sched.totalRuns = s.totalRuns + 1 ∧
    (executeScheduledPost s now).sched.successfulRuns = s.successfulRuns + 1 ∧
    (executeScheduledPost s now).sched.failedRuns = s.failedRuns ∧
    (executeScheduledPost s now).sched.scheduleType = s.scheduleType ∧
    (executeScheduledPost s now).sched.scheduleConfig = s.scheduleConfig ∧
    (executeScheduledPost s now).sched.platforms = s.platforms ∧
    (executeScheduledPost s now).sched.request = s.request ∧
    (executeScheduledPost s now).sched.includeImages = s.includeImages ∧
    (executeScheduledPost s now).sched.includeVideo = s.includeVideo ∧
    (executeScheduledPost s now).sched.startDate = s.startDate ∧
    (executeScheduledPost s now).sched.endDate = s.endDate := by
  have hnone : calculateNextRun s.scheduleType s.scheduleConfig now = none := by
    rw [hty]
    rfl
  have hrun : (executeScheduledPost s now).sched =
      { s with
          lastRunAt := some now
          totalRuns := s.totalRuns + 1
          successfulRuns := s.successfulRuns + 1
          status := "completed"
          isActive := false } := by
    unfold executeScheduledPost
    rw [if_neg (by simp [hact, hst])]
    rw [if_neg (isEmpty_not_true_of_ne_nil hp)]
    dsimp only
    rw [hnone]
  rw [hrun]
  exact ⟨hnone, rfl, rfl, rfl, rfl, rfl, rfl, rfl, rfl, rfl, rfl, rfl, rfl, rfl, rfl, rfl⟩

/-- C9 witness: the one-time schedule fired at a concrete instant. -/
theorem c9_one_time_completes_witness :
    cexScheduleOneTime.isActive = true ∧ cexScheduleOneTime.status = "active" ∧
    cexScheduleOneTime.scheduleType = "one_time" ∧ cexScheduleOneTime.platforms ≠ [] ∧
    (calculateNextRun cexScheduleOneTime.scheduleType cexScheduleOneTime.scheduleConfig
        ⟨2025, 1, 2, 9, 0, 30, 0⟩ = none ∧
      (executeScheduledPost cexScheduleOneTime ⟨2025, 1, 2, 9, 0, 30, 0⟩).sched.status =
        "completed" ∧
      (executeScheduledPost cexScheduleOneTime ⟨2025, 1, 2, 9, 0, 30, 0⟩).sched.isActive =
        false ∧
      (executeScheduledPost cexScheduleOneTime ⟨2025, 1, 2, 9, 0, 30, 0⟩).sched.nextRunAt =
        cexScheduleOneTime.nextRunAt ∧
      (executeScheduledPost cexScheduleOneTime ⟨2025, 1, 2, 9, 0, 30, 0⟩).sched.lastRunAt =
        some ⟨2025, 1, 2, 9, 0, 30, 0⟩ ∧
      (executeScheduledPost cexScheduleOneTime ⟨2025, 1, 2, 9, 0, 30, 0⟩).sched.totalRuns =
        cexScheduleOneTime.totalRuns + 1 ∧
      (executeScheduledPost cexScheduleOneTime ⟨2025, 1, 2, 9, 0, 30, 0⟩).sched.successfulRuns =
        cexScheduleOneTime.successfulRuns + 1 ∧
      (executeScheduledPost cexScheduleOneTime ⟨2025, 1, 2, 9, 0, 30, 0⟩).sched.failedRuns =
        cexScheduleOneTime.failedRuns ∧
      (executeScheduledPost cexScheduleOneTime ⟨2025, 1, 2, 9, 0, 30, 0⟩).sched.scheduleType =
        cexScheduleOneTime.scheduleType ∧
      (executeScheduledPost cexScheduleOneTime ⟨2025, 1, 2, 9, 0, 30, 0⟩).sched.scheduleConfig =
        cexScheduleOneTime.scheduleConfig ∧
      (executeScheduledPost cexScheduleOneTime ⟨2025, 1, 2, 9, 0, 30, 0⟩).sched.platforms =
        cexScheduleOneTime.platforms ∧
      (executeScheduledPost cexScheduleOneTime ⟨2025, 1, 2, 9, 0, 30, 0⟩).sched.request =
        cexScheduleOneTime.request ∧
      (executeScheduledPost cexScheduleOneTime ⟨2025, 1, 2, 9, 0, 30, 0⟩).sched.includeImages =
        cexScheduleOneTime.includeImages ∧
      (executeScheduledPost cexScheduleOneTime ⟨2025, 1, 2, 9, 0, 30, 0⟩).sched.includeVideo =
        cexScheduleOneTime.includeVideo ∧
      (executeScheduledPost cexScheduleOneTime ⟨2025, 1, 2, 9, 0, 30, 0⟩).sched.startDate =
        cexScheduleOneTime.startDate ∧
      (executeScheduledPost cexScheduleOneTime ⟨2025, 1, 2, 9, 0, 30, 0⟩).sched.endDate =
        cexScheduleOneTime.endDate) :=
  ⟨rfl, rfl, rfl, by decide,
    c9_one_time_completes cexScheduleOneTime ⟨2025, 1, 2, 9, 0, 30, 0⟩
      rfl rfl rfl (by decide)⟩

/-- C10: a successful dispatch increments both `total_runs` and
`successful_runs` and stamps `last_run_at` at enqueue time — before the
enqueued content-creation job runs; the content-creation worker never
writes schedule rows, so a pipeline execution that later fails still
leaves `successful_runs` incremented and `failed_runs` unchanged. -/
theorem c10_successful_runs_counts_dispatches (s : Schedule) (now : PyDateTime)
    (env : PipelineEnv)
    (hact : s.isActive = true) (hst : s.status = "active") (hp : s.platforms ≠ [])
    (hfail : ∀ p ∈ s.platforms, genOk env p = false) :
    (executeScheduledPost s now).dispatched = true ∧
    (executeScheduledPost s now).sched.successfulRuns = s.successfulRuns + 1 ∧
    (executeScheduledPost s now).sched.totalRuns = s.totalRuns + 1 ∧
    (executeScheduledPost s now).sched.lastRunAt = some now ∧
    (executeScheduledPost s now).sched.failedRuns = s.failedRuns ∧
    (executeContentCreation env (createExecution "create_content")
        (scheduleRequestData s)).record.status = "failed" := by
  have hpipe : (executeContentCreation env (createExecution "create_content")
      (scheduleRequestData s)).record.status = "failed" := by
    rw [executeContentCreation_early env (createExecution "create_content")
      (scheduleRequestData s) hp hfail]
  unfold executeScheduledPost
  rw [if_neg (by simp [hact, hst])]
  rw [if_neg (isEmpty_not_true_of_ne_nil hp)]
  dsimp only
  cases calculateNextRun s.scheduleType s.scheduleConfig now with
  | some nextRun =>
      dsimp only
      cases s.endDate with
      | some endDate =>
          dsimp only
          split
          · exact ⟨rfl, rfl, rfl, rfl, rfl, hpipe⟩
          · exact ⟨rfl, rfl, rfl, rfl, rfl, hpipe⟩
      | none => exact ⟨rfl, rfl, rfl, rfl, rfl, hpipe⟩
  | none => exact ⟨rfl, rfl, rfl, rfl, rfl, hpipe⟩

/-- C10 witness: the daily schedule dispatched at a concrete instant under
the environment where the pipeline then fails all generation. -/
theorem c10_successful_runs_counts_dispatches_witness :
    cexScheduleDaily.isActive = true ∧ cexScheduleDaily.status = "active" ∧
    cexScheduleDaily.platforms ≠ [] ∧
    (∀ p ∈ cexScheduleDaily.platforms, genOk cexEnvAllGenFail p = false) ∧
    ((executeScheduledPost cexScheduleDaily ⟨2025, 1, 2, 9, 5, 0, 0⟩).dispatched = true ∧
      (executeScheduledPost cexScheduleDaily ⟨2025, 1, 2, 9, 5, 0, 0⟩).sched.successfulRuns =
        cexScheduleDaily.successfulRuns + 1 ∧
      (executeScheduledPost cexScheduleDaily ⟨2025, 1, 2, 9, 5, 0, 0⟩).sched.totalRuns =
        cexScheduleDaily.totalRuns + 1 ∧
      (executeScheduledPost cexScheduleDaily ⟨2025, 1, 2, 9, 5, 0, 0⟩).sched.lastRunAt =
        some ⟨2025, 1, 2, 9, 5, 0, 0⟩ ∧
      (executeScheduledPost cexScheduleDaily ⟨2025, 1, 2, 9, 5, 0, 0⟩).sched.failedRuns =
        cexScheduleDaily.failedRuns ∧
      (executeContentCreation cexEnvAllGenFail (createExecution "create_content")
          (scheduleRequestData cexScheduleDaily)).record.status = "failed") :=
  ⟨rfl, rfl, by decide, by decide,
    c10_successful_runs_counts_dispatches cexScheduleDaily ⟨2025, 1, 2, 9, 5, 0, 0⟩
      cexEnvAllGenFail rfl rfl (by decide) (by decide)⟩

end AIConnect
